import Mathlib

/-!
Verification of the Kodiak/Uniswap-V3 pool setup scripts.

Shallow embedding of `v3_kodiak_pool_setup.py` (class `KodiakV3Setup`) and
`archive/v3_pool_verification.py` (class `KodiakV3PoolVerification`).
The chain RPC is modelled as an explicit oracle record (an `Env` structure):
each read-only contract call is a field of the oracle, a view call that can
revert is an `Except`/`Option` field, and each method returns both its Python
return value (`Except String` models raise-vs-return) and the list of
state-changing transactions it submitted.  Console output (`print`) is an
external collaborator per the specification and is not part of any result.
-/

namespace Kodiak

/-- Python `str.lower()` restricted to the ASCII hex strings used as addresses,
modelled with `Char.toLower` character by character. -/
def lowerStr (s : String) : String := ⟨s.data.map Char.toLower⟩

/-- Value of one hexadecimal digit character (0 for a non-hex character). -/
def hexVal (c : Char) : Nat :=
  if '0' ≤ c ∧ c ≤ '9' then c.toNat - '0'.toNat
  else if 'a' ≤ c ∧ c ≤ 'f' then c.toNat - 'a'.toNat + 10
  else if 'A' ≤ c ∧ c ≤ 'F' then c.toNat - 'A'.toNat + 10
  else 0

/-- Numeric value of a hex address string of the shape `0x` followed by hex
digits, read as an unsigned integer (the "numeric address order" of the spec
compares these values). -/
def addrVal (s : String) : Nat :=
  (s.data.drop 2).foldl (fun acc c => 16 * acc + hexVal c) 0

/-- Python's `<` on strings: lexicographic comparison of the code points
(CPython compares strings character by character by code point, and a strict
prefix is smaller). -/
def pyStrLt : List Char → List Char → Bool
  | [], [] => false
  | [], _ :: _ => true
  | _ :: _, [] => false
  | c1 :: r1, c2 :: r2 =>
    if c1.toNat < c2.toNat then true
    else if c2.toNat < c1.toNat then false
    else pyStrLt r1 r2

/-- Asymmetry of Python string comparison. -/
theorem pyStrLt_asymm : ∀ a b : List Char, pyStrLt a b = true → pyStrLt b a = false
  | [], [] => by simp [pyStrLt]
  | [], _ :: _ => by simp [pyStrLt]
  | _ :: _, [] => by simp [pyStrLt]
  | c1 :: r1, c2 :: r2 => by
    simp only [pyStrLt]
    intro h
    by_cases hlt : c1.toNat < c2.toNat
    · rw [if_neg (by omega), if_pos hlt]
    · rw [if_neg hlt] at h
      by_cases hgt : c2.toNat < c1.toNat
      · rw [if_pos hgt] at h; exact absurd h (by simp)
      · rw [if_neg hgt] at h
        rw [if_neg hgt, if_neg hlt]
        exact pyStrLt_asymm r1 r2 h

/-- Totality of Python string comparison: two strings neither of which is
below the other are equal. -/
theorem pyStrLt_total_eq : ∀ a b : List Char, pyStrLt a b = false → pyStrLt b a = false → a = b
  | [], [] => by simp
  | [], _ :: _ => by simp [pyStrLt]
  | _ :: _, [] => by simp [pyStrLt]
  | c1 :: r1, c2 :: r2 => by
    simp only [pyStrLt]
    intro h1 h2
    by_cases hlt : c1.toNat < c2.toNat
    · rw [if_pos hlt] at h1; exact absurd h1 (by simp)
    · by_cases hgt : c2.toNat < c1.toNat
      · rw [if_pos hgt] at h2; exact absurd h2 (by simp)
      · rw [if_neg hlt, if_neg hgt] at h1
        rw [if_neg hgt, if_neg hlt] at h2
        have hn : c1.toNat = c2.toNat := by omega
        have hc : c1 = c2 := Char.eq_of_val_eq (UInt32.toNat.inj hn)
        rw [hc, pyStrLt_total_eq r1 r2 h1 h2]

/-- Model of `sorted([token1_address, token2_address])` from
`KodiakV3Setup.__init__` (line 24), specialised to a two-element list:
Python's sort compares the address *strings* lexicographically by code point
(case-sensitive), and a stable two-element sort swaps exactly when the second
element compares strictly below the first. -/
def canonicalize (a b : String) : String × String :=
  if pyStrLt b.data a.data then (b, a) else (a, b)

/-- The attributes of `KodiakV3Setup` that the embedded methods consume
(`__init__` stores them; the web3 connection and the ABI loading are external
collaborators and out of scope). -/
structure KodiakV3Setup where
  token0_address : String
  token1_address : String
  factory_address : String
  nft_manager_address : String

/-- Model of `KodiakV3Setup.__init__`: the token pair is stored in Python
sorted (string) order, the factory and position-manager addresses verbatim. -/
def mkSetup (token1_address token2_address factory_address nft_manager_address : String) :
    KodiakV3Setup :=
  { token0_address := (canonicalize token1_address token2_address).1
    token1_address := (canonicalize token1_address token2_address).2
    factory_address := factory_address
    nft_manager_address := nft_manager_address }

/-- C4 counterexample: canonicalization does NOT order the pair by numeric
address value.  For A = 0xB000…0 and B = 0xa000…0 the numeric values satisfy
val(A) = 11·16³⁹ > 10·16³⁹ = val(B), but Python's case-sensitive string sort
puts "0xB…" (code point 66) before "0xa…" (code point 97), so the stored
token0 is numerically larger than token1. -/
theorem canonicalize_numeric_order_cex :
    ¬ (addrVal (canonicalize "0xB000000000000000000000000000000000000000"
        "0xa000000000000000000000000000000000000000").1
       < addrVal (canonicalize "0xB000000000000000000000000000000000000000"
        "0xa000000000000000000000000000000000000000").2) := by
  decide

/-- C4 (amended): canonicalization is commutative, and for distinct input
addresses the resulting pair satisfies token0 < token1 under Python's
case-sensitive lexicographic string order (the order the source actually
sorts by); numeric address order is not guaranteed for mixed-case inputs. -/
theorem canonicalize_comm_string_order (a b : String) (h : a ≠ b) :
    canonicalize a b = canonicalize b a ∧
    pyStrLt (canonicalize a b).1.data (canonicalize a b).2.data = true := by
  unfold canonicalize
  by_cases hba : pyStrLt b.data a.data = true
  · have hab : pyStrLt a.data b.data = false := pyStrLt_asymm _ _ hba
    rw [if_pos hba, if_neg (by simp [hab])]
    exact ⟨rfl, hba⟩
  · have hba' : pyStrLt b.data a.data = false := by simpa using hba
    by_cases hab : pyStrLt a.data b.data = true
    · rw [if_neg (by simp [hba']), if_pos hab]
      exact ⟨rfl, hab⟩
    · have hab' : pyStrLt a.data b.data = false := by simpa using hab
      exact absurd (String.ext (pyStrLt_total_eq _ _ hab' hba')) h

/-- Witness for the amended C4 theorem at the two mock-token addresses from
the source's `main`. -/
theorem canonicalize_comm_string_order_witness :
    (("0xc3D7F1F91a77618C959f8114422af4b3d70b2B4C" : String) ≠
        "0x3E6Ed0430B872599BC7b2E1c9833B8f1552b5518") ∧
    (canonicalize "0xc3D7F1F91a77618C959f8114422af4b3d70b2B4C"
        "0x3E6Ed0430B872599BC7b2E1c9833B8f1552b5518" =
      canonicalize "0x3E6Ed0430B872599BC7b2E1c9833B8f1552b5518"
        "0xc3D7F1F91a77618C959f8114422af4b3d70b2B4C" ∧
    pyStrLt (canonicalize "0xc3D7F1F91a77618C959f8114422af4b3d70b2B4C"
        "0x3E6Ed0430B872599BC7b2E1c9833B8f1552b5518").1.data
      (canonicalize "0xc3D7F1F91a77618C959f8114422af4b3d70b2B4C"
        "0x3E6Ed0430B872599BC7b2E1c9833B8f1552b5518").2.data = true) :=
  ⟨by decide, canonicalize_comm_string_order _ _ (by decide)⟩

/-- The zero address the source compares `getPool`'s result against
(`v3_kodiak_pool_setup.py`, line 59). -/
def ZERO_ADDRESS : String := "0x0000000000000000000000000000000000000000"

/-- Chain oracle for `create_pool`: the read-only factory queries and the
ambient transaction data the method consumes.  `getPool` is the factory's
existence check, `estimateGasCreatePool` the gas estimate for the creation
call, `txCount` the signer's transaction count (used as the nonce),
`receiptStatus` the status of the mined creation receipt and
`poolCreatedAddress` the pool address carried by the `PoolCreated` event of
that receipt. -/
structure FactoryEnv where
  getPool : String → String → Nat → String
  estimateGasCreatePool : String → String → Nat → Nat
  gasPrice : Nat
  txCount : Nat
  receiptStatus : Nat
  poolCreatedAddress : String
  senderAddress : String

/-- One state-changing `createPool` transaction as the source builds it. -/
structure CreatePoolTx where
  token0 : String
  token1 : String
  fee : Nat
  sender : String
  chainId : Nat
  gas : Nat
  gasPrice : Nat
  nonce : Nat
  deriving DecidableEq

/-- Observable outcome of `create_pool`: the Python return value or raised
error, the read-only `getPool` queries issued (token0, token1, fee), and the
state-changing transactions submitted. -/
structure CreatePoolResult where
  ret : Except String String
  reads : List (String × String × Nat)
  txs : List CreatePoolTx

/-- Gas with the 20 percent buffer: exact-arithmetic model of
`int(gas_estimate * 1.2)` from line 66 of the source (the two agree at every
input any theorem below evaluates it at). -/
def gasWithBuffer (gas_estimate : Nat) : Nat := gas_estimate * 12 / 10

/-- Shallow embedding of `KodiakV3Setup.create_pool` (lines 53-90).  The fee
is the hardcoded local `fee = 100`; the method first issues the read-only
existence check and short-circuits on a non-zero address; otherwise it
estimates gas, computes the buffered `gas_limit` (which the source then drops:
the transaction is built with the raw `gas_estimate`), builds, signs and
broadcasts the creation transaction, and fails if the receipt status is not 1,
else returns the address from the `PoolCreated` event. -/
def create_pool (env : FactoryEnv) (s : KodiakV3Setup) (chain_id : Nat) : CreatePoolResult :=
  let fee := 100
  let existing_pool_address := env.getPool s.token0_address s.token1_address fee
  if existing_pool_address ≠ ZERO_ADDRESS then
    { ret := .ok existing_pool_address
      reads := [(s.token0_address, s.token1_address, fee)]
      txs := [] }
  else
    let gas_estimate := env.estimateGasCreatePool s.token0_address s.token1_address fee
    let _gas_limit := gasWithBuffer gas_estimate
    let tx : CreatePoolTx :=
      { token0 := s.token0_address
        token1 := s.token1_address
        fee := fee
        sender := env.senderAddress
        chainId := chain_id
        gas := gas_estimate
        gasPrice := env.gasPrice
        nonce := env.txCount }
    if env.receiptStatus ≠ 1 then
      { ret := .error "Failed to create pool: Pool creation failed"
        reads := [(s.token0_address, s.token1_address, fee)]
        txs := [tx] }
    else
      { ret := .ok env.poolCreatedAddress
        reads := [(s.token0_address, s.token1_address, fee)]
        txs := [tx] }

/-- C1: when the factory's read-only existence check reports a non-zero
address, `create_pool` returns exactly that address and submits no
state-changing transaction; in particular a second call after a first call
returned the pool address (now reported by `getPool`) yields the same address
and issues zero transactions. -/
theorem create_pool_idempotent (env1 env2 : FactoryEnv) (s : KodiakV3Setup)
    (chain_id1 chain_id2 : Nat) (p : String)
    (_hfirst : (create_pool env1 s chain_id1).ret = .ok p)
    (hpool : env2.getPool s.token0_address s.token1_address 100 = p)
    (hz : p ≠ ZERO_ADDRESS) :
    (create_pool env2 s chain_id2).ret = .ok p ∧ (create_pool env2 s chain_id2).txs = [] := by
  have hc : create_pool env2 s chain_id2 =
      { ret := .ok p, reads := [(s.token0_address, s.token1_address, 100)], txs := [] } := by
    unfold create_pool
    simp only [hpool]
    rw [if_pos hz]
  rw [hc]
  exact ⟨rfl, rfl⟩

/-- Witness for C1: a concrete factory oracle that reports an existing pool. -/
theorem create_pool_idempotent_witness :
    ((create_pool
        { getPool := fun _ _ _ => "0x031634e7190162ade35C80516D958F3dF6a5C513"
          estimateGasCreatePool := fun _ _ _ => 300000
          gasPrice := 7
          txCount := 3
          receiptStatus := 1
          poolCreatedAddress := "0x031634e7190162ade35C80516D958F3dF6a5C513"
          senderAddress := "0x50199d4274E898d3E09B335fD233ADC55544F223" }
        (mkSetup "0xc3D7F1F91a77618C959f8114422af4b3d70b2B4C"
          "0x3E6Ed0430B872599BC7b2E1c9833B8f1552b5518"
          "0x217Cd80795EfCa5025d47023da5c03a24fA95356"
          "0xc0568c6e9d5404124c8aa9efd955f3f14c8e64a6")
        80084).ret = .ok "0x031634e7190162ade35C80516D958F3dF6a5C513" ∧
     (create_pool
        { getPool := fun _ _ _ => "0x031634e7190162ade35C80516D958F3dF6a5C513"
          estimateGasCreatePool := fun _ _ _ => 300000
          gasPrice := 7
          txCount := 3
          receiptStatus := 1
          poolCreatedAddress := "0x031634e7190162ade35C80516D958F3dF6a5C513"
          senderAddress := "0x50199d4274E898d3E09B335fD233ADC55544F223" }
        (mkSetup "0xc3D7F1F91a77618C959f8114422af4b3d70b2B4C"
          "0x3E6Ed0430B872599BC7b2E1c9833B8f1552b5518"
          "0x217Cd80795EfCa5025d47023da5c03a24fA95356"
          "0xc0568c6e9d5404124c8aa9efd955f3f14c8e64a6")
        80084).txs = []) :=
  create_pool_idempotent
    { getPool := fun _ _ _ => "0x031634e7190162ade35C80516D958F3dF6a5C513"
      estimateGasCreatePool := fun _ _ _ => 300000
      gasPrice := 7
      txCount := 3
      receiptStatus := 1
      poolCreatedAddress := "0x031634e7190162ade35C80516D958F3dF6a5C513"
      senderAddress := "0x50199d4274E898d3E09B335fD233ADC55544F223" }
    { getPool := fun _ _ _ => "0x031634e7190162ade35C80516D958F3dF6a5C513"
      estimateGasCreatePool := fun _ _ _ => 300000
      gasPrice := 7
      txCount := 3
      receiptStatus := 1
      poolCreatedAddress := "0x031634e7190162ade35C80516D958F3dF6a5C513"
      senderAddress := "0x50199d4274E898d3E09B335fD233ADC55544F223" }
    (mkSetup "0xc3D7F1F91a77618C959f8114422af4b3d70b2B4C"
      "0x3E6Ed0430B872599BC7b2E1c9833B8f1552b5518"
      "0x217Cd80795EfCa5025d47023da5c03a24fA95356"
      "0xc0568c6e9d5404124c8aa9efd955f3f14c8e64a6")
    80084 80084 "0x031634e7190162ade35C80516D958F3dF6a5C513"
    rfl rfl (by decide)

/-- C10: `create_pool` always uses the fixed fee tier 100, both for the
read-only existence check and for any creation transaction it submits; the
fee is a local constant, not a caller-supplied parameter. -/
theorem create_pool_fixed_fee (env : FactoryEnv) (s : KodiakV3Setup) (chain_id : Nat) :
    (create_pool env s chain_id).reads = [(s.token0_address, s.token1_address, 100)] ∧
    ∀ tx ∈ (create_pool env s chain_id).txs, tx.fee = 100 := by
  unfold create_pool
  simp only []
  by_cases hex : env.getPool s.token0_address s.token1_address 100 ≠ ZERO_ADDRESS
  · rw [if_pos hex]
    exact ⟨rfl, by intro tx h; simp at h⟩
  · rw [if_neg hex]
    by_cases hrs : env.receiptStatus ≠ 1
    · rw [if_pos hrs]
      refine ⟨rfl, ?_⟩
      intro tx h
      simp only [List.mem_singleton] at h
      rw [h]
    · rw [if_neg hrs]
      refine ⟨rfl, ?_⟩
      intro tx h
      simp only [List.mem_singleton] at h
      rw [h]

/-- C3 (code bug): on the creation path the built transaction carries the raw
gas estimate, not the buffered value.  At a factory oracle where the pool does
not yet exist and the estimate is 100, the submitted transaction has
`gas = 100`, while `int(100 * 1.2) = 120`: the source computes `gas_limit`
with the 20 percent buffer on line 66 and then never uses it, building the
transaction with `'gas': gas_estimate` on line 69. -/
theorem create_pool_gas_is_raw_estimate :
    ((create_pool
        { getPool := fun _ _ _ => ZERO_ADDRESS
          estimateGasCreatePool := fun _ _ _ => 100
          gasPrice := 7
          txCount := 3
          receiptStatus := 1
          poolCreatedAddress := "0x031634e7190162ade35C80516D958F3dF6a5C513"
          senderAddress := "0x50199d4274E898d3E09B335fD233ADC55544F223" }
        (mkSetup "0xc3D7F1F91a77618C959f8114422af4b3d70b2B4C"
          "0x3E6Ed0430B872599BC7b2E1c9833B8f1552b5518"
          "0x217Cd80795EfCa5025d47023da5c03a24fA95356"
          "0xc0568c6e9d5404124c8aa9efd955f3f14c8e64a6")
        80084).txs.map CreatePoolTx.gas = [100]) ∧
    gasWithBuffer 100 = 120 ∧ (100 : Nat) ≠ gasWithBuffer 100 := by
  decide

/-- The slot0 tuple of a V3 pool as the source reads it: index 0 is
`sqrtPriceX96`, index 1 the current tick, index 6 the unlocked flag. -/
structure Slot0 where
  sqrtPriceX96 : Nat
  tick : Int
  observationIndex : Nat
  observationCardinality : Nat
  observationCardinalityNext : Nat
  feeProtocol : Nat
  unlocked : Bool
  deriving DecidableEq

/-- The initial price constant of `initialize_V3pool` (line 112 of the
source): 1 · 2⁹⁶, the Q64.96 encoding of price 1. -/
def INITIAL_SQRTPRICE : Nat := 1 * 2 ^ 96

/-- Square-root-price encoding as the specification words it:
floor(sqrt(price) · 2⁹⁶), computed exactly for a natural price as
Nat.sqrt (price · 2¹⁹²). -/
def encodeSqrtPriceX96 (price : Nat) : Nat := Nat.sqrt (price * 2 ^ 192)

/-- Chain oracle for `initialize_V3pool`: `slot0 = some s` models a
successful read-only `slot0()` call, `none` models the reverting call on an
uninitialized pool (the source treats any exception from the read as the
uninitialized signal). -/
structure PoolInitEnv where
  slot0 : Option Slot0
  txCount : Nat
  receiptStatus : Nat
  txHash : String
  senderAddress : String

/-- One state-changing pool-initialization transaction as the source builds
it (line 132): the target price, the signer, the fresh transaction count as
nonce, and the fixed gas limit 200000. -/
structure InitPoolTx where
  pool : String
  sqrtPriceX96 : Nat
  sender : String
  nonce : Nat
  gas : Nat
  deriving DecidableEq

/-- Observable outcome of `initialize_V3pool`: the Python return value
(`none` for the already-initialized branch, `some txHash` after a successful
initialization) or raised error, and the submitted transactions. -/
structure InitPoolResult where
  ret : Except String (Option String)
  txs : List InitPoolTx

/-- Shallow embedding of `KodiakV3Setup.initialize_V3pool` (lines 104-147).
When the read-only `slot0()` query succeeds the observed price is printed
(console output is an external collaborator) and the method returns `None`
with no transaction; when it fails, an `initialize(INITIAL_SQRTPRICE)`
transaction is built, signed and broadcast, raising if the receipt status is
not 1 and returning the transaction hash otherwise. -/
def initialize_V3pool (env : PoolInitEnv) (pool_address : String) : InitPoolResult :=
  match env.slot0 with
  | some _slot0 => { ret := .ok none, txs := [] }
  | none =>
    let nonce := env.txCount
    let tx : InitPoolTx :=
      { pool := pool_address
        sqrtPriceX96 := INITIAL_SQRTPRICE
        sender := env.senderAddress
        nonce := nonce
        gas := 200000 }
    if env.receiptStatus ≠ 1 then
      { ret := .error "failed to initialize pool: Pool initialization failed", txs := [tx] }
    else
      { ret := .ok (some env.txHash), txs := [tx] }

/-- C2 counterexample: on an already-initialized pool `initialize_V3pool`
returns `None`, not the observed price.  Two pools whose slot0 reads report
different prices (42 and 77) produce the very same result, `.ok none` with no
transactions, so the return value cannot be the existing price. -/
theorem initialize_V3pool_return_not_price_cex :
    ((42 : Nat) ≠ 77) ∧
    initialize_V3pool
      { slot0 := some
          { sqrtPriceX96 := 42, tick := 0, observationIndex := 0,
            observationCardinality := 0, observationCardinalityNext := 0,
            feeProtocol := 0, unlocked := true },
        txCount := 0, receiptStatus := 1, txHash := "0xabc",
        senderAddress := "0x50199d4274E898d3E09B335fD233ADC55544F223" }
      "0x031634e7190162ade35C80516D958F3dF6a5C513" =
      { ret := Except.ok none, txs := [] } ∧
    initialize_V3pool
      { slot0 := some
          { sqrtPriceX96 := 77, tick := 0, observationIndex := 0,
            observationCardinality := 0, observationCardinalityNext := 0,
            feeProtocol := 0, unlocked := true },
        txCount := 0, receiptStatus := 1, txHash := "0xabc",
        senderAddress := "0x50199d4274E898d3E09B335fD233ADC55544F223" }
      "0x031634e7190162ade35C80516D958F3dF6a5C513" =
      { ret := Except.ok none, txs := [] } :=
  ⟨by decide, rfl, rfl⟩

/-- C2 (amended): for every pool whose read-only slot0 query succeeds,
`initialize_V3pool` is a no-op that issues zero transactions and returns
`None`; the existing price is only printed, not returned. -/
theorem initialize_V3pool_noop_when_initialized (env : PoolInitEnv) (pool_address : String)
    (s0 : Slot0) (h : env.slot0 = some s0) :
    initialize_V3pool env pool_address = { ret := .ok none, txs := [] } := by
  unfold initialize_V3pool
  rw [h]

/-- Witness for the amended C2 theorem at a concrete initialized pool. -/
theorem initialize_V3pool_noop_when_initialized_witness :
    initialize_V3pool
      { slot0 := some
          { sqrtPriceX96 := 79228162514264337593543950336, tick := 0,
            observationIndex := 0, observationCardinality := 0,
            observationCardinalityNext := 0, feeProtocol := 0, unlocked := true },
        txCount := 5, receiptStatus := 1, txHash := "0xabc",
        senderAddress := "0x50199d4274E898d3E09B335fD233ADC55544F223" }
      "0x031634e7190162ade35C80516D958F3dF6a5C513" =
      { ret := .ok none, txs := [] } :=
  initialize_V3pool_noop_when_initialized _ _
    { sqrtPriceX96 := 79228162514264337593543950336, tick := 0,
      observationIndex := 0, observationCardinality := 0,
      observationCardinalityNext := 0, feeProtocol := 0, unlocked := true }
    rfl

/-- C6: the Q64.96 encoding of price 1 is exactly 79228162514264337593543950336
(floor(sqrt 1 · 2⁹⁶) = 2⁹⁶), the source's `INITIAL_SQRTPRICE` equals that same
value, and whenever the slot0 read fails (the uninitialized signal) the
submitted initialization transaction carries exactly this price. -/
theorem initial_sqrt_price_exact (env : PoolInitEnv) (pool_address : String)
    (h : env.slot0 = none) :
    encodeSqrtPriceX96 1 = 79228162514264337593543950336 ∧
    INITIAL_SQRTPRICE = 79228162514264337593543950336 ∧
    (initialize_V3pool env pool_address).txs.map InitPoolTx.sqrtPriceX96 =
      [79228162514264337593543950336] := by
  refine ⟨?_, by norm_num [INITIAL_SQRTPRICE], ?_⟩
  · show Nat.sqrt (1 * 2 ^ 192) = _
    rw [one_mul]
    have h2 : (2 : Nat) ^ 192 = (2 ^ 96) ^ 2 := by rw [← pow_mul]
    rw [h2, Nat.sqrt_eq']
    norm_num
  · unfold initialize_V3pool
    rw [h]
    by_cases hrs : env.receiptStatus ≠ 1
    · rw [if_pos hrs]
      simp [INITIAL_SQRTPRICE]
    · rw [if_neg hrs]
      simp [INITIAL_SQRTPRICE]

/-- Witness for C6 at a concrete uninitialized pool. -/
theorem initial_sqrt_price_exact_witness :
    encodeSqrtPriceX96 1 = 79228162514264337593543950336 ∧
    INITIAL_SQRTPRICE = 79228162514264337593543950336 ∧
    (initialize_V3pool
        { slot0 := none, txCount := 5, receiptStatus := 1, txHash := "0xabc",
          senderAddress := "0x50199d4274E898d3E09B335fD233ADC55544F223" }
        "0x031634e7190162ade35C80516D958F3dF6a5C513").txs.map InitPoolTx.sqrtPriceX96 =
      [79228162514264337593543950336] :=
  initial_sqrt_price_exact
    { slot0 := none, txCount := 5, receiptStatus := 1, txHash := "0xabc",
      senderAddress := "0x50199d4274E898d3E09B335fD233ADC55544F223" }
    "0x031634e7190162ade35C80516D958F3dF6a5C513" rfl

/-- The tick bounds used by `add_full_range_liquidity` (lines 163-164 of the
source).  The source first derives candidate values from floating-point
logarithms of the 2±¹²⁸ price bounds (lines 160-161) and then unconditionally
overwrites both variables with these exact literals, so the literals are the
effective values and the float computation is dead code. -/
def MIN_TICK : Int := -887272

/-- Upper full-range tick bound, see `MIN_TICK`. -/
def MAX_TICK : Int := 887272

/-- Chain oracle for `add_full_range_liquidity`: `poolFee` models the
read-only `fee()` call on the pool passed in, `checksum` models
`Web3.to_checksum_address`, `latestTimestamp` the latest block timestamp used
for the deadline, and the receipt status of the mint transaction.  The token
approval receipts are awaited but never status-checked by the source, so only
the mint receipt can raise. -/
structure LiquidityEnv where
  poolFee : String → Nat
  checksum : String → String
  latestTimestamp : Nat
  gasPrice : Nat
  txCount : Nat
  mintReceiptStatus : Nat
  txHash : String
  senderAddress : String

/-- One ERC20 `approve` transaction as the source builds it (lines 186-196). -/
structure ApproveTx where
  token : String
  spender : String
  amount : Nat
  sender : String
  gas : Nat
  deriving DecidableEq

/-- The mint parameter record of the position manager call (lines 204-215). -/
structure MintParams where
  token0 : String
  token1 : String
  fee : Nat
  tickLower : Int
  tickUpper : Int
  amount0Desired : Nat
  amount1Desired : Nat
  amount0Min : Nat
  amount1Min : Nat
  recipient : String
  deadline : Nat
  deriving DecidableEq

/-- Observable outcome of `add_full_range_liquidity`: the Python return value
or raised error, the two sequential approval transactions, and the submitted
mint call's parameter record.  The post-mint position and tick queries only
feed `print` diagnostics (console output is out of scope). -/
structure AddLiquidityResult where
  ret : Except String String
  approvals : List ApproveTx
  mint : MintParams

/-- Shallow embedding of `KodiakV3Setup.add_full_range_liquidity`
(lines 149-245): reads the pool's fee tier (never hardcoded), approves both
tokens for the position manager sequentially, then mints a position with
tickLower = MIN_TICK and tickUpper = MAX_TICK, zero minimum amounts and a
deadline of the latest block timestamp plus 1200 seconds, raising when the
mint receipt status is not 1. -/
def add_full_range_liquidity (env : LiquidityEnv) (s : KodiakV3Setup)
    (pool_address : String) (amount0 amount1 : Nat) : AddLiquidityResult :=
  let pool_fee := env.poolFee pool_address
  let nft_manager_address := env.checksum s.nft_manager_address
  let token0_address := env.checksum s.token0_address
  let token1_address := env.checksum s.token1_address
  let approvals : List ApproveTx :=
    [ { token := token0_address, spender := nft_manager_address, amount := amount0,
        sender := env.senderAddress, gas := 100000 },
      { token := token1_address, spender := nft_manager_address, amount := amount1,
        sender := env.senderAddress, gas := 100000 } ]
  let mintParams : MintParams :=
    { token0 := token0_address
      token1 := token1_address
      fee := pool_fee
      tickLower := MIN_TICK
      tickUpper := MAX_TICK
      amount0Desired := amount0
      amount1Desired := amount1
      amount0Min := 0
      amount1Min := 0
      recipient := env.senderAddress
      deadline := env.latestTimestamp + 1200 }
  if env.mintReceiptStatus ≠ 1 then
    { ret := .error "failed to add liquidity: Failed to add liquidity",
      approvals := approvals, mint := mintParams }
  else
    { ret := .ok env.txHash, approvals := approvals, mint := mintParams }

/-- C5: MIN_TICK is -887272 and MAX_TICK is 887272, and every full-range mint
submitted by `add_full_range_liquidity` uses exactly these bounds, for every
pool fee tier the oracle reports (tick spacing is never even consulted). -/
theorem full_range_mint_uses_min_max_tick (env : LiquidityEnv) (s : KodiakV3Setup)
    (pool_address : String) (amount0 amount1 : Nat) :
    MIN_TICK = -887272 ∧ MAX_TICK = 887272 ∧
    (add_full_range_liquidity env s pool_address amount0 amount1).mint.tickLower = -887272 ∧
    (add_full_range_liquidity env s pool_address amount0 amount1).mint.tickUpper = 887272 := by
  refine ⟨rfl, rfl, ?_, ?_⟩ <;>
    · unfold add_full_range_liquidity
      by_cases hrs : env.mintReceiptStatus ≠ 1
      · rw [if_pos hrs]; rfl
      · rw [if_neg hrs]; rfl

/-- Big-endian byte list of `n` in `numBytes` bytes: models Python's
`n.to_bytes(numBytes, 'big')` (line 280 of the source uses it with 3). -/
def to_bytes_be (numBytes n : Nat) : List Nat :=
  (List.range numBytes).map (fun i => n / 256 ^ (numBytes - 1 - i) % 256)

/-- Unsigned integer value of a big-endian byte list. -/
def from_bytes_be (bs : List Nat) : Nat := bs.foldl (fun acc b => 256 * acc + b) 0

/-- Bytes of a list of hex digit characters, two characters per byte. -/
def hexPairsToBytes : List Char → List Nat
  | c1 :: c2 :: rest => (16 * hexVal c1 + hexVal c2) :: hexPairsToBytes rest
  | _ => []

/-- Bytes of a hex address string after its `0x` prefix: models
`Web3.to_bytes(hexstr=...)` as used on lines 279 and 281. -/
def to_bytes_hexstr (s : String) : List Nat := hexPairsToBytes (s.data.drop 2)

/-- The encoded swap path built by `swap_tokens` (lines 279-281): tokenIn's
20 address bytes, the fee tier as 3 big-endian bytes, tokenOut's 20 address
bytes, concatenated. -/
def encoded_path (tokenIn : String) (fee : Nat) (tokenOut : String) : List Nat :=
  to_bytes_hexstr tokenIn ++ to_bytes_be 3 fee ++ to_bytes_hexstr tokenOut

/-- Decoding of a byte path by splitting it into 20/3/20-byte segments, the
spec's inverse operation for the round-trip property. -/
def decodePath (p : List Nat) : List Nat × Nat × List Nat :=
  (p.take 20, from_bytes_be ((p.drop 20).take 3), p.drop 23)

/-- Two hex characters yield one byte, so half the characters many bytes. -/
theorem hexPairsToBytes_length : ∀ l : List Char, (hexPairsToBytes l).length = l.length / 2
  | [] => by simp [hexPairsToBytes]
  | [c] => by simp [hexPairsToBytes]
  | c1 :: c2 :: rest => by
    simp only [hexPairsToBytes, List.length_cons, hexPairsToBytes_length rest]
    omega

/-- Three big-endian bytes decode back to any value below 2²⁴. -/
theorem from_to_bytes_be_3 (n : Nat) (h : n < 2 ^ 24) :
    from_bytes_be (to_bytes_be 3 n) = n := by
  show from_bytes_be ((List.range 3).map _) = n
  rw [show List.range 3 = [0, 1, 2] from rfl]
  simp only [List.map, from_bytes_be, List.foldl]
  norm_num
  omega

/-- Splitting a 20-byte, 3-byte, rest concatenation recovers the segments. -/
theorem split_segments (x y z : List Nat) (hx : x.length = 20) (hy : y.length = 3) :
    (x ++ (y ++ z)).take 20 = x ∧ ((x ++ (y ++ z)).drop 20).take 3 = y ∧
      (x ++ (y ++ z)).drop 23 = z := by
  refine ⟨?_, ?_, ?_⟩
  · rw [← hx]; exact List.take_left x (y ++ z)
  · rw [← hx, List.drop_left, ← hy]; exact List.take_left y z
  · have h1 : ((x ++ (y ++ z)).drop 20).drop 3 = (x ++ (y ++ z)).drop 23 := by
      rw [List.drop_drop]
    rw [← h1, ← hx, List.drop_left, ← hy, List.drop_left]

/-- C7: for 20-byte token addresses (42-character hex strings) and a fee tier
below 2²⁴, decoding the encoded path by 20/3/20-byte segments reconstructs
(tokenIn, fee, tokenOut) exactly, and the three segments have byte lengths
20, 3 and 20. -/
theorem path_roundtrip (a b : String) (fee : Nat)
    (ha : a.data.length = 42) (hb : b.data.length = 42) (hf : fee < 2 ^ 24) :
    decodePath (encoded_path a fee b) = (to_bytes_hexstr a, fee, to_bytes_hexstr b) ∧
    (to_bytes_hexstr a).length = 20 ∧ (to_bytes_be 3 fee).length = 3 ∧
    (to_bytes_hexstr b).length = 20 := by
  have la : (to_bytes_hexstr a).length = 20 := by
    simp [to_bytes_hexstr, hexPairsToBytes_length, ha]
  have lb : (to_bytes_hexstr b).length = 20 := by
    simp [to_bytes_hexstr, hexPairsToBytes_length, hb]
  have lfee : (to_bytes_be 3 fee).length = 3 := by simp [to_bytes_be]
  have hsplit := split_segments (to_bytes_hexstr a) (to_bytes_be 3 fee) (to_bytes_hexstr b) la lfee
  refine ⟨?_, la, lfee, lb⟩
  unfold decodePath encoded_path
  rw [List.append_assoc, hsplit.1, hsplit.2.1, hsplit.2.2, from_to_bytes_be_3 fee hf]

/-- Witness for C7 at the two mock-token addresses and fee tier 100. -/
theorem path_roundtrip_witness :
    (("0xc3D7F1F91a77618C959f8114422af4b3d70b2B4C" : String).data.length = 42 ∧
     ("0x3E6Ed0430B872599BC7b2E1c9833B8f1552b5518" : String).data.length = 42 ∧
     (100 : Nat) < 2 ^ 24) ∧
    (decodePath (encoded_path "0xc3D7F1F91a77618C959f8114422af4b3d70b2B4C" 100
        "0x3E6Ed0430B872599BC7b2E1c9833B8f1552b5518") =
      (to_bytes_hexstr "0xc3D7F1F91a77618C959f8114422af4b3d70b2B4C", 100,
        to_bytes_hexstr "0x3E6Ed0430B872599BC7b2E1c9833B8f1552b5518") ∧
    (to_bytes_hexstr "0xc3D7F1F91a77618C959f8114422af4b3d70b2B4C").length = 20 ∧
    (to_bytes_be 3 100).length = 3 ∧
    (to_bytes_hexstr "0x3E6Ed0430B872599BC7b2E1c9833B8f1552b5518").length = 20) :=
  ⟨⟨by decide, by decide, by decide⟩,
    path_roundtrip "0xc3D7F1F91a77618C959f8114422af4b3d70b2B4C"
      "0x3E6Ed0430B872599BC7b2E1c9833B8f1552b5518" 100
      (by decide) (by decide) (by decide)⟩

/-- Per-tick data of the pool's `ticks(tick)` view call as the verification
script consumes it: index 0 is `liquidityGross` (the only index the source
reads), index 1 is `liquidityNet`. -/
structure TickData where
  liquidityGross : Nat
  liquidityNet : Int
  deriving DecidableEq

/-- Result tuple of `snapshotCumulativesInside(tickLower, tickUpper)`:
the source reads index 2, the seconds spent inside the range. -/
structure SnapshotData where
  tickCumulativeInside : Int
  secondsPerLiquidityInsideX128 : Nat
  secondsInside : Nat
  deriving DecidableEq

/-- The position tuple of the NFT manager's `positions(tokenId)` call, with
the fields at the indices the source reads (4 as the owner string, 5-7 as
ticks and liquidity, 8-11 as fee growth and tokens owed). -/
structure PositionData where
  owner : String
  tickLower : Int
  tickUpper : Int
  liquidity : Nat
  feeGrowthInside0 : Nat
  feeGrowthInside1 : Nat
  tokensOwed0 : Nat
  tokensOwed1 : Nat
  deriving DecidableEq

/-- Chain oracle for `KodiakV3PoolVerification`: each field is one read-only
contract query; `.error` models a reverting or failing RPC call, which Python
surfaces as an exception. -/
structure DiagEnv where
  slot0 : Except String Slot0
  liquidity : Except String Nat
  tickSpacing : Except String Int
  ticks : Int → Except String TickData
  snapshotCumulativesInside : Int → Int → Except String SnapshotData
  positions : Nat → Except String PositionData
  quote : Nat → Nat → Bool → Except String (Nat × Nat)

/-- Result record of `check_active_tick` (lines 30-55 of
`archive/v3_pool_verification.py`).  The source computes `price` in Python
floating point; it is modelled exactly in ℚ (no claim depends on the float
rounding). -/
structure ActiveTickInfo where
  current_tick : Int
  sqrt_price_x96 : Nat
  price : ℚ
  current_liquidity : Nat
  pool_unlocked : Bool
  deriving DecidableEq

/-- Shallow embedding of `KodiakV3PoolVerification.check_active_tick`: reads
slot0 and the pool liquidity, re-raising any failure as
"Failed to check active tick: ...". -/
def check_active_tick (env : DiagEnv) : Except String ActiveTickInfo :=
  match env.slot0 with
  | .error e => .error ("Failed to check active tick: " ++ e)
  | .ok slot0 =>
    match env.liquidity with
    | .error e => .error ("Failed to check active tick: " ++ e)
    | .ok current_liquidity =>
      .ok { current_tick := slot0.tick
            sqrt_price_x96 := slot0.sqrtPriceX96
            price := ((slot0.sqrtPriceX96 : ℚ) / 2 ^ 96) ^ 2
            current_liquidity := current_liquidity
            pool_unlocked := slot0.unlocked }

/-- Result record of `verify_liquidity_range` (lines 57-81). -/
structure RangeInfo where
  tick_lower_initialized : Bool
  tick_upper_initialized : Bool
  tick_lower_liquidity : Nat
  tick_upper_liquidity : Nat
  seconds_inside : Nat
  deriving DecidableEq

/-- Shallow embedding of `KodiakV3PoolVerification.verify_liquidity_range`:
reads both boundary ticks and the cumulative snapshot, re-raising any failure
as "Failed to verify liquidity range: ..."; a tick is reported initialized
when its `liquidityGross` is positive. -/
def verify_liquidity_range (env : DiagEnv) (tick_lower tick_upper : Int) :
    Except String RangeInfo :=
  match env.ticks tick_lower with
  | .error e => .error ("Failed to verify liquidity range: " ++ e)
  | .ok tick_lower_info =>
    match env.ticks tick_upper with
    | .error e => .error ("Failed to verify liquidity range: " ++ e)
    | .ok tick_upper_info =>
      match env.snapshotCumulativesInside tick_lower tick_upper with
      | .error e => .error ("Failed to verify liquidity range: " ++ e)
      | .ok cumulative_data =>
        .ok { tick_lower_initialized := decide (tick_lower_info.liquidityGross > 0)
              tick_upper_initialized := decide (tick_upper_info.liquidityGross > 0)
              tick_lower_liquidity := tick_lower_info.liquidityGross
              tick_upper_liquidity := tick_upper_info.liquidityGross
              seconds_inside := cumulative_data.secondsInside }

/-- Result record of `check_position_initialization` (lines 83-115). -/
structure PositionCheck where
  is_owner : Bool
  tick_lower : Int
  tick_upper : Int
  liquidity : Nat
  lower_tick_initialized : Bool
  upper_tick_initialized : Bool
  fee_growth_inside : Nat × Nat
  tokens_owed : Nat × Nat
  deriving DecidableEq

/-- Shallow embedding of
`KodiakV3PoolVerification.check_position_initialization`: reads the position
and its two boundary ticks, re-raising any failure as
"Failed to check position initialization: ...". -/
def check_position_initialization (env : DiagEnv) (position_id : Nat)
    (owner_address : String) : Except String PositionCheck :=
  match env.positions position_id with
  | .error e => .error ("Failed to check position initialization: " ++ e)
  | .ok position =>
    match env.ticks position.tickLower with
    | .error e => .error ("Failed to check position initialization: " ++ e)
    | .ok lowerInfo =>
      match env.ticks position.tickUpper with
      | .error e => .error ("Failed to check position initialization: " ++ e)
      | .ok upperInfo =>
        .ok { is_owner := lowerStr position.owner == lowerStr owner_address
              tick_lower := position.tickLower
              tick_upper := position.tickUpper
              liquidity := position.liquidity
              lower_tick_initialized := decide (lowerInfo.liquidityGross > 0)
              upper_tick_initialized := decide (upperInfo.liquidityGross > 0)
              fee_growth_inside := (position.feeGrowthInside0, position.feeGrowthInside1)
              tokens_owed := (position.tokensOwed0, position.tokensOwed1) }

/-- Result record of `verify_swap_path` (lines 117-163). -/
structure SwapPathInfo where
  current_tick : Int
  next_tick : Int
  tick_spacing : Int
  liquidity_available : Bool
  can_swap : Bool
  quoted_amount_out : Option Nat
  sqrt_price_limit : Option Nat
  deriving DecidableEq

/-- Shallow embedding of `KodiakV3PoolVerification.verify_swap_path`: reads
the active tick, computes the next tick boundary in the trade direction using
Python floor division (`Int.fdiv`; a zero tick spacing raises Python's
ZeroDivisionError, re-raised by the outer handler), checks the liquidity of
the surrounding range, and attempts the non-committing quote: a quote failure
is caught by the inner handler and reported as `can_swap = false` with no
quoted amount, never raised. -/
def verify_swap_path (env : DiagEnv) (amount_in : Nat) (zero_for_one : Bool) :
    Except String SwapPathInfo :=
  match check_active_tick env with
  | .error e => .error ("Failed to verify swap path: " ++ e)
  | .ok current_state =>
    match env.tickSpacing with
    | .error e => .error ("Failed to verify swap path: " ++ e)
    | .ok tick_spacing =>
      if tick_spacing = 0 then
        .error "Failed to verify swap path: integer division or modulo by zero"
      else
        let current_tick := current_state.current_tick
        let base_tick := (Int.fdiv current_tick tick_spacing) * tick_spacing
        let next_tick := if zero_for_one then base_tick - tick_spacing
                         else base_tick + tick_spacing
        match verify_liquidity_range env (min current_tick next_tick)
            (max current_tick next_tick) with
        | .error e => .error ("Failed to verify swap path: " ++ e)
        | .ok liquidity_info =>
          match env.quote amount_in current_state.sqrt_price_x96 zero_for_one with
          | .ok q =>
            .ok { current_tick := current_tick
                  next_tick := next_tick
                  tick_spacing := tick_spacing
                  liquidity_available := decide (liquidity_info.tick_lower_liquidity > 0)
                  can_swap := true
                  quoted_amount_out := some q.1
                  sqrt_price_limit := some q.2 }
          | .error _ =>
            .ok { current_tick := current_tick
                  next_tick := next_tick
                  tick_spacing := tick_spacing
                  liquidity_available := decide (liquidity_info.tick_lower_liquidity > 0)
                  can_swap := false
                  quoted_amount_out := none
                  sqrt_price_limit := none }

/-- The full diagnostic report of `run_full_diagnosis` (lines 165-204). -/
structure Diagnosis where
  pool_state : ActiveTickInfo
  position_state : PositionCheck
  current_range_liquidity : RangeInfo
  position_range_liquidity : RangeInfo
  swap_zero_to_one : SwapPathInfo
  swap_one_to_zero : SwapPathInfo
  deriving DecidableEq

/-- Shallow embedding of `KodiakV3PoolVerification.run_full_diagnosis`: runs
the pool-state check, the position check, the liquidity check over the fixed
±10-tick window around the active tick and over the position's own window,
and both swap directions with a test amount of 1000000; the method installs
no handler of its own, so any component failure propagates unchanged. -/
def run_full_diagnosis (env : DiagEnv) (position_id : Nat) (owner_address : String) :
    Except String Diagnosis :=
  match check_active_tick env with
  | .error e => .error e
  | .ok pool_state =>
    match check_position_initialization env position_id owner_address with
    | .error e => .error e
    | .ok position_state =>
      match verify_liquidity_range env (pool_state.current_tick - 10)
          (pool_state.current_tick + 10) with
      | .error e => .error e
      | .ok current_range_liquidity =>
        match verify_liquidity_range env position_state.tick_lower
            position_state.tick_upper with
        | .error e => .error e
        | .ok position_range_liquidity =>
          match verify_swap_path env 1000000 true with
          | .error e => .error e
          | .ok zero_to_one =>
            match verify_swap_path env 1000000 false with
            | .error e => .error e
            | .ok one_to_zero =>
              .ok { pool_state := pool_state
                    position_state := position_state
                    current_range_liquidity := current_range_liquidity
                    position_range_liquidity := position_range_liquidity
                    swap_zero_to_one := zero_to_one
                    swap_one_to_zero := one_to_zero }

/-- C8: whenever the pool-state and range reads succeed and the tick spacing
is non-zero, a failing quote inside `verify_swap_path` is captured, not
propagated: the call returns a result with `can_swap = false` and no quoted
amount instead of raising. -/
theorem verify_swap_path_quote_failure (env : DiagEnv) (amount_in : Nat)
    (zero_for_one : Bool) (st : ActiveTickInfo) (sp : Int)
    (ri : Int → Int → RangeInfo) (e : String)
    (hst : check_active_tick env = .ok st)
    (hsp : env.tickSpacing = .ok sp) (hsp0 : ¬ sp = 0)
    (hrange : ∀ tl tu, verify_liquidity_range env tl tu = .ok (ri tl tu))
    (hq : env.quote amount_in st.sqrt_price_x96 zero_for_one = .error e) :
    ∃ res, verify_swap_path env amount_in zero_for_one = .ok res ∧
      res.can_swap = false ∧ res.quoted_amount_out = none := by
  simp only [verify_swap_path, hst, hsp, if_neg hsp0, hrange, hq]
  exact ⟨_, rfl, rfl, rfl⟩

/-- Witness for C8: a concrete oracle whose quote call reverts. -/
theorem verify_swap_path_quote_failure_witness :
    ∃ res, verify_swap_path
      { slot0 := .ok
          { sqrtPriceX96 := 79228162514264337593543950336, tick := 0,
            observationIndex := 0, observationCardinality := 1,
            observationCardinalityNext := 1, feeProtocol := 0, unlocked := true },
        liquidity := .ok 0
        tickSpacing := .ok 1
        ticks := fun _ => .ok { liquidityGross := 0, liquidityNet := 0 }
        snapshotCumulativesInside := fun _ _ =>
          .ok
            { tickCumulativeInside := 0, secondsPerLiquidityInsideX128 := 0,
              secondsInside := 0 }
        positions := fun _ => .ok
          { owner := "0x50199d4274E898d3E09B335fD233ADC55544F223",
            tickLower := -887272, tickUpper := 887272, liquidity := 0,
            feeGrowthInside0 := 0, feeGrowthInside1 := 0, tokensOwed0 := 0, tokensOwed1 := 0 }
        quote := fun _ _ _ => .error "execution reverted" }
      1000000 true = .ok res ∧
      res.can_swap = false ∧ res.quoted_amount_out = none :=
  verify_swap_path_quote_failure
    { slot0 := .ok
        { sqrtPriceX96 := 79228162514264337593543950336, tick := 0,
          observationIndex := 0, observationCardinality := 1,
          observationCardinalityNext := 1, feeProtocol := 0, unlocked := true },
      liquidity := .ok 0
      tickSpacing := .ok 1
      ticks := fun _ => .ok { liquidityGross := 0, liquidityNet := 0 }
      snapshotCumulativesInside := fun _ _ =>
        .ok
          { tickCumulativeInside := 0, secondsPerLiquidityInsideX128 := 0,
            secondsInside := 0 }
      positions := fun _ => .ok
        { owner := "0x50199d4274E898d3E09B335fD233ADC55544F223",
          tickLower := -887272, tickUpper := 887272, liquidity := 0,
          feeGrowthInside0 := 0, feeGrowthInside1 := 0, tokensOwed0 := 0, tokensOwed1 := 0 }
      quote := fun _ _ _ => .error "execution reverted" }
    1000000 true
    { current_tick := 0, sqrt_price_x96 := 79228162514264337593543950336,
      price := ((79228162514264337593543950336 : ℚ) / 2 ^ 96) ^ 2,
      current_liquidity := 0, pool_unlocked := true }
    1
    (fun _ _ =>
      { tick_lower_initialized := false, tick_upper_initialized := false,
        tick_lower_liquidity := 0, tick_upper_liquidity := 0, seconds_inside := 0 })
    "execution reverted"
    rfl rfl (by decide) (fun _ _ => rfl) rfl

/-- On an oracle whose ticks all carry zero gross liquidity and whose
snapshot reads succeed, every range check returns successfully with both
boundary ticks uninitialized and zero liquidity. -/
theorem verify_liquidity_range_zero (env : DiagEnv) (tk : Int → TickData)
    (sd : Int → Int → SnapshotData)
    (hticks : ∀ t, env.ticks t = .ok (tk t))
    (htk0 : ∀ t, (tk t).liquidityGross = 0)
    (hsnap : ∀ tl tu, env.snapshotCumulativesInside tl tu = .ok (sd tl tu)) :
    ∀ tl tu, verify_liquidity_range env tl tu =
      .ok { tick_lower_initialized := false, tick_upper_initialized := false,
            tick_lower_liquidity := 0, tick_upper_liquidity := 0,
            seconds_inside := (sd tl tu).secondsInside } := by
  intro tl tu
  simp [verify_liquidity_range, hticks, hsnap, htk0]

/-- A swap-path check on an oracle whose range checks all report zero
liquidity completes successfully and reports no available liquidity,
whether the quote succeeds or fails. -/
theorem verify_swap_path_no_liquidity (env : DiagEnv) (amount_in : Nat)
    (zero_for_one : Bool) (st : ActiveTickInfo) (sp : Int)
    (ri : Int → Int → RangeInfo)
    (hst : check_active_tick env = .ok st)
    (hsp : env.tickSpacing = .ok sp) (hsp0 : ¬ sp = 0)
    (hrange : ∀ tl tu, verify_liquidity_range env tl tu = .ok (ri tl tu))
    (hri0 : ∀ tl tu, (ri tl tu).tick_lower_liquidity = 0) :
    ∃ res, verify_swap_path env amount_in zero_for_one = .ok res ∧
      res.liquidity_available = false := by
  simp only [verify_swap_path, hst, hsp, if_neg hsp0, hrange]
  cases hq : env.quote amount_in st.sqrt_price_x96 zero_for_one with
  | error e => exact ⟨_, rfl, by simp [hri0]⟩
  | ok q => exact ⟨_, rfl, by simp [hri0]⟩

/-- C9: on a pool with zero liquidity (every tick's gross liquidity is zero)
whose read-only queries all succeed and whose tick spacing is non-zero,
`run_full_diagnosis` completes without raising and returns a populated report
in which both swap-direction checks report no available liquidity and both
range checks report both boundary ticks uninitialized with zero liquidity;
only a failing infrastructure read could make it raise. -/
theorem run_full_diagnosis_zero_liquidity (env : DiagEnv) (position_id : Nat)
    (owner_address : String) (s0 : Slot0) (liq : Nat) (sp : Int)
    (pos : PositionData) (tk : Int → TickData) (sd : Int → Int → SnapshotData)
    (hslot : env.slot0 = .ok s0)
    (hliq : env.liquidity = .ok liq)
    (hsp : env.tickSpacing = .ok sp) (hsp0 : ¬ sp = 0)
    (hpos : env.positions position_id = .ok pos)
    (hticks : ∀ t, env.ticks t = .ok (tk t))
    (htk0 : ∀ t, (tk t).liquidityGross = 0)
    (hsnap : ∀ tl tu, env.snapshotCumulativesInside tl tu = .ok (sd tl tu)) :
    ∃ report, run_full_diagnosis env position_id owner_address = .ok report ∧
      report.swap_zero_to_one.liquidity_available = false ∧
      report.swap_one_to_zero.liquidity_available = false ∧
      report.current_range_liquidity.tick_lower_initialized = false ∧
      report.current_range_liquidity.tick_upper_initialized = false ∧
      report.current_range_liquidity.tick_lower_liquidity = 0 ∧
      report.current_range_liquidity.tick_upper_liquidity = 0 ∧
      report.position_range_liquidity.tick_lower_initialized = false ∧
      report.position_range_liquidity.tick_upper_initialized = false := by
  have hca : check_active_tick env =
      .ok { current_tick := s0.tick, sqrt_price_x96 := s0.sqrtPriceX96,
            price := ((s0.sqrtPriceX96 : ℚ) / 2 ^ 96) ^ 2,
            current_liquidity := liq, pool_unlocked := s0.unlocked } := by
    simp [check_active_tick, hslot, hliq]
  have hcp : check_position_initialization env position_id owner_address =
      .ok { is_owner := lowerStr pos.owner == lowerStr owner_address,
            tick_lower := pos.tickLower, tick_upper := pos.tickUpper,
            liquidity := pos.liquidity,
            lower_tick_initialized := false, upper_tick_initialized := false,
            fee_growth_inside := (pos.feeGrowthInside0, pos.feeGrowthInside1),
            tokens_owed := (pos.tokensOwed0, pos.tokensOwed1) } := by
    simp [check_position_initialization, hpos, hticks, htk0]
  have hrange := verify_liquidity_range_zero env tk sd hticks htk0 hsnap
  obtain ⟨r1, hr1, hl1⟩ := verify_swap_path_no_liquidity env 1000000 true _ sp _
    hca hsp hsp0 hrange (fun _ _ => rfl)
  obtain ⟨r2, hr2, hl2⟩ := verify_swap_path_no_liquidity env 1000000 false _ sp _
    hca hsp hsp0 hrange (fun _ _ => rfl)
  simp only [run_full_diagnosis, hca, hcp, hrange, hr1, hr2]
  exact ⟨_, rfl, hl1, hl2, rfl, rfl, rfl, rfl, rfl, rfl⟩

/-- Witness for C9: a concrete zero-liquidity oracle (every tick has zero
gross liquidity, every read succeeds, quotes revert) at the position id and
owner address from the verification script's `main`. -/
theorem run_full_diagnosis_zero_liquidity_witness :
    ∃ report, run_full_diagnosis
      { slot0 := .ok
          { sqrtPriceX96 := 79228162514264337593543950336, tick := 0,
            observationIndex := 0, observationCardinality := 1,
            observationCardinalityNext := 1, feeProtocol := 0, unlocked := true },
        liquidity := .ok 0
        tickSpacing := .ok 1
        ticks := fun _ => .ok { liquidityGross := 0, liquidityNet := 0 }
        snapshotCumulativesInside := fun _ _ =>
          .ok
            { tickCumulativeInside := 0, secondsPerLiquidityInsideX128 := 0,
              secondsInside := 0 }
        positions := fun _ => .ok
          { owner := "0x50199d4274E898d3E09B335fD233ADC55544F223",
            tickLower := -887272, tickUpper := 887272, liquidity := 0,
            feeGrowthInside0 := 0, feeGrowthInside1 := 0, tokensOwed0 := 0, tokensOwed1 := 0 }
        quote := fun _ _ _ => .error "execution reverted" }
      34883 "0x50199d4274E898d3E09B335fD233ADC55544F223" = .ok report ∧
      report.swap_zero_to_one.liquidity_available = false ∧
      report.swap_one_to_zero.liquidity_available = false ∧
      report.current_range_liquidity.tick_lower_initialized = false ∧
      report.current_range_liquidity.tick_upper_initialized = false ∧
      report.current_range_liquidity.tick_lower_liquidity = 0 ∧
      report.current_range_liquidity.tick_upper_liquidity = 0 ∧
      report.position_range_liquidity.tick_lower_initialized = false ∧
      report.position_range_liquidity.tick_upper_initialized = false :=
  run_full_diagnosis_zero_liquidity
    { slot0 := .ok
        { sqrtPriceX96 := 79228162514264337593543950336, tick := 0,
          observationIndex := 0, observationCardinality := 1,
          observationCardinalityNext := 1, feeProtocol := 0, unlocked := true },
      liquidity := .ok 0
      tickSpacing := .ok 1
      ticks := fun _ => .ok { liquidityGross := 0, liquidityNet := 0 }
      snapshotCumulativesInside := fun _ _ =>
        .ok
          { tickCumulativeInside := 0, secondsPerLiquidityInsideX128 := 0,
            secondsInside := 0 }
      positions := fun _ => .ok
        { owner := "0x50199d4274E898d3E09B335fD233ADC55544F223",
          tickLower := -887272, tickUpper := 887272, liquidity := 0,
          feeGrowthInside0 := 0, feeGrowthInside1 := 0, tokensOwed0 := 0, tokensOwed1 := 0 }
      quote := fun _ _ _ => .error "execution reverted" }
    34883 "0x50199d4274E898d3E09B335fD233ADC55544F223"
    { sqrtPriceX96 := 79228162514264337593543950336, tick := 0,
      observationIndex := 0, observationCardinality := 1,
      observationCardinalityNext := 1, feeProtocol := 0, unlocked := true }
    0 1
    { owner := "0x50199d4274E898d3E09B335fD233ADC55544F223",
      tickLower := -887272, tickUpper := 887272, liquidity := 0,
      feeGrowthInside0 := 0, feeGrowthInside1 := 0, tokensOwed0 := 0, tokensOwed1 := 0 }
    (fun _ => { liquidityGross := 0, liquidityNet := 0 })
    (fun _ _ =>
      { tickCumulativeInside := 0, secondsPerLiquidityInsideX128 := 0,
        secondsInside := 0 })
    rfl rfl rfl (by decide) rfl (fun _ => rfl) (fun _ => rfl) (fun _ _ => rfl)

end Kodiak
